import Mathlib

set_option maxHeartbeats 1000000
set_option maxRecDepth 10000

/-!
Shallow embedding of `src/flask/server_with_profanity_list.py`: a Flask
handler that parses a generation request, validates the scenario with the
regex `[A-Za-z가-힣]`, screens it against a profanity lexicon (substring
match on the raw text plus exact-token match on the MeCab token list),
and otherwise builds a prompt pair and concatenates a streamed response.
The MeCab tokenizer and the OpenAI gateway are external collaborators and
are modelled as parameters of the handler.
-/

namespace Papyrus

/-- Character class of the validation regex `[A-Za-z가-힣]` (line 57):
basic Latin letters and Hangul syllables U+AC00..U+D7A3. -/
def isLatinOrHangulSyllable (c : Char) : Bool :=
  (65 ≤ c.toNat && c.toNat ≤ 90) || (97 ≤ c.toNat && c.toNat ≤ 122) ||
    (0xAC00 ≤ c.toNat && c.toNat ≤ 0xD7A3)

/-- Python `re.search(r"[A-Za-z가-힣]", scenario)` viewed as a Bool:
some character of the string is a Latin letter or a Hangul syllable. -/
def hasLetterOrHangul (s : String) : Bool :=
  s.data.any isLatinOrHangulSyllable

/-- Helper for the substring test: `w` is a prefix of `s`. -/
def isPrefixList : List Char → List Char → Bool
  | [], _ => true
  | _ :: _, [] => false
  | a :: w, b :: s => a == b && isPrefixList w s

/-- Helper for the substring test: `w` occurs contiguously inside `s`
(Python `w in s` semantics, so the empty string occurs in everything). -/
def listIsSubstr (w : List Char) : List Char → Bool
  | [] => w.isEmpty
  | b :: s => isPrefixList w (b :: s) || listIsSubstr w s

/-- Python `word in scenario` substring membership test on strings. -/
def containsSubstr (s w : String) : Bool :=
  listIsSubstr w.data s.data

/-- ScreeningResult of the spec: pass/reject decision plus the
deduplicated matched terms. -/
structure ScreeningResult where
  passed : Bool
  matchedTerms : List String
deriving DecidableEq

/-- Lines 66-77 of the source: tokenize the scenario with MeCab
(`tokenize` parameter), keep every lexicon word occurring in the raw
scenario text or among the tokens, deduplicate (`list(set(...))`,
modelled by `List.dedup`), and pass iff nothing matched. -/
def screen (scenario : String) (profanity_list : List String)
    (tokenize : String → List String) : ScreeningResult :=
  let scenario_tokens := tokenize scenario
  let found_words := profanity_list.filter
    (fun word => containsSubstr scenario word || scenario_tokens.contains word)
  let deduped := found_words.dedup
  { passed := deduped.isEmpty, matchedTerms := deduped }

/-- The module-level `token_limit = 512` constant. -/
def token_limit : Nat := 512

/-- The system prompt template of lines 90-97, parameterized by the token
limit interpolated into the f-string. -/
def system_prompt_of (tl : Nat) : String :=
  "당신은 사용자가 요청한 특정 작가의 문체와 감성을 정밀하게 재현할 수 있는 글쓰기 전문 AI 보조입니다. " ++
    toString tl ++
    "토큰을 초과하지 않는 범위에서 하나의 단락으로 구성된 글을 작성하되 " ++
    "글이 중간에 끊기지 않고 완결된 문장으로 마무리되도록 해 주세요. " ++
    "글이 너무 길어질 것 같다면 요약하되, 마지막 문장은 반드시 문장 부호를 포함하여 완전히 끝맺어야 합니다. " ++
    "작가의 대표적인 작품 분위기, 문체적 특징 및 표현 방식을 명확히 반영해 주세요. " ++
    "단, 텍스트 이외의 생성형 이미지나 사진, 그림 등 시각적 콘텐츠는 생성하거나 요청해서는 안 됩니다."

/-- The user prompt template of lines 100-107, parameterized by the three
request fields interpolated into the f-string. -/
def user_prompt_of (author documentType scenario : String) : String :=
  "다음 조건에 따라 글을 작성해 주세요.\n\n" ++
    "- 작가: " ++ author ++ "\n" ++
    "- 글의 종류: " ++ documentType ++ "\n" ++
    "- 글의 주제 및 상황: " ++ scenario ++ "\n\n" ++
    "조건의 설명을 포함하지 말고, 글만 생성해야 합니다." ++
    "글이 중간에 끊기지 않고, 마지막 문장까지 매끄럽게 이어져야 합니다."

/-- The system/user instruction pair handed to the Generation Gateway. -/
structure PromptPair where
  system : String
  user : String
deriving DecidableEq

/-- Prompt Builder of the spec: the pair of instruction strings, a
function of (author, documentType, scenario, tokenLimit). -/
def buildPrompt (author documentType scenario : String) (tl : Nat) : PromptPair :=
  { system := system_prompt_of tl,
    user := user_prompt_of author documentType scenario }

/-- Body of the HTTP response: either the `jsonify` envelope
`isSuccessful`/`result` or the exception shape `error`. -/
inductive ResponseBody
  | envelope (isSuccessful : Bool) (result : String)
  | error (message : String)
deriving DecidableEq

/-- An HTTP response: status code plus JSON body. `jsonify` defaults the
status to 200; the exception handler returns 500. -/
structure HttpResponse where
  status : Nat
  body : ResponseBody
deriving DecidableEq

/-- Observable outcome of one handler run: the response sent back and the
list of prompt pairs sent to the Generation Gateway (in order), so that
"the gateway was never/once invoked" is expressible. -/
structure HandlerOutcome where
  response : HttpResponse
  gatewayCalls : List PromptPair
deriving DecidableEq

/-- The parseable JSON request body: each of the three fields may be
missing (the Python `data.get(key, default)` calls). -/
structure RequestData where
  author : Option String
  documentType : Option String
  scenario : Option String
deriving DecidableEq

/-- GenerationRequest of the spec: the three fields after defaulting. -/
structure GenerationRequest where
  author : String
  documentType : String
  scenario : String
deriving DecidableEq

/-- Lines 46-48: `data.get` with the three field defaults. -/
def parseRequest (d : RequestData) : GenerationRequest :=
  { author := d.author.getD "무명 작가",
    documentType := d.documentType.getD "단문",
    scenario := d.scenario.getD "주제 없음" }

/-- The fixed soft-rejection message for a scenario without letters. -/
def elaborationMessage : String := "당신의 이야기를 조금만 더 들려주실 수 있나요?"

/-- The fixed prefix of the profanity soft-rejection message. -/
def profanityMessagePrefix : String := "민감한 표현의 단어가 포함되었습니다. : "

/-- The message of the exception raised by `data.get` when `request.json`
is not a structured object (modulo Python punctuation). -/
def parseFailureMessage : String := "NoneType object has no attribute get"

/-- Lines 123-126: a streamed chunk contributes its content unless the
delta is absent or its content is empty (Python truthiness test). -/
def appendChunk (acc : String) (c : Option String) : String :=
  match c with
  | none => acc
  | some s => if s.isEmpty then acc else acc ++ s

/-- Left fold accumulating the streamed chunks into the final text. -/
def accumulateStream (chunks : List (Option String)) : String :=
  chunks.foldl appendChunk ""

/-- The `/generate_letter` handler (lines 40-152). `data` is `none` when
the body cannot be parsed as a structured object (the `data.get` call then
raises, caught by the outer `except` as a 500). `tokenize` is the MeCab
tokenizer, `gateway` the outcome of the OpenAI streaming call: either an
exception message or the list of streamed chunk contents. -/
def generate_letter (data : Option RequestData) (tokenize : String → List String)
    (profanity_list : List String)
    (gateway : Except String (List (Option String))) : HandlerOutcome :=
  match data with
  | none =>
    { response := { status := 500, body := .error parseFailureMessage },
      gatewayCalls := [] }
  | some d =>
    let req := parseRequest d
    if hasLetterOrHangul req.scenario then
      let sres := screen req.scenario profanity_list tokenize
      if sres.passed then
        let p := buildPrompt req.author req.documentType req.scenario token_limit
        match gateway with
        | .error e =>
          { response := { status := 500, body := .error e }, gatewayCalls := [p] }
        | .ok chunks =>
          { response := { status := 200,
                          body := .envelope true (accumulateStream chunks) },
            gatewayCalls := [p] }
      else
        { response := { status := 200,
                        body := .envelope false (profanityMessagePrefix ++
                          String.intercalate ", " sres.matchedTerms) },
          gatewayCalls := [] }
    else
      { response := { status := 200, body := .envelope false elaborationMessage },
        gatewayCalls := [] }

/-! Characterizations of the screening primitives. -/

lemma isPrefixList_iff (w s : List Char) :
    isPrefixList w s = true ↔ ∃ r, s = w ++ r := by
  induction w generalizing s with
  | nil => simp [isPrefixList]
  | cons a w ih =>
    cases s with
    | nil => simp [isPrefixList]
    | cons b s =>
      simp only [isPrefixList, Bool.and_eq_true, beq_iff_eq, ih, List.cons_append,
        List.cons.injEq]
      constructor
      · rintro ⟨rfl, r, rfl⟩
        exact ⟨r, rfl, rfl⟩
      · rintro ⟨r, rfl, rfl⟩
        exact ⟨rfl, r, rfl⟩

lemma listIsSubstr_iff (w s : List Char) :
    listIsSubstr w s = true ↔ ∃ l r, s = l ++ (w ++ r) := by
  induction s with
  | nil =>
    simp only [listIsSubstr, List.isEmpty_iff]
    constructor
    · rintro rfl
      exact ⟨[], [], rfl⟩
    · rintro ⟨l, r, h⟩
      rcases List.append_eq_nil.mp h.symm with ⟨rfl, h2⟩
      rcases List.append_eq_nil.mp h2 with ⟨rfl, rfl⟩
      rfl
  | cons b s ih =>
    simp only [listIsSubstr, Bool.or_eq_true, isPrefixList_iff, ih]
    constructor
    · rintro (⟨r, h⟩ | ⟨l, r, rfl⟩)
      · exact ⟨[], r, h⟩
      · exact ⟨b :: l, r, rfl⟩
    · rintro ⟨l, r, h⟩
      cases l with
      | nil => exact Or.inl ⟨r, h⟩
      | cons x l =>
        rw [List.cons_append] at h
        cases h
        exact Or.inr ⟨l, r, rfl⟩

/-- The Python `word in scenario` test holds exactly when the word occurs
verbatim and contiguously inside the scenario text. -/
lemma containsSubstr_iff (s w : String) :
    containsSubstr s w = true ↔ ∃ l r, s.data = l ++ (w.data ++ r) :=
  listIsSubstr_iff w.data s.data

/-- Membership in the screening result: exactly the lexicon words found in
the raw text or among the tokens. -/
lemma mem_matchedTerms (scenario : String) (profanity_list : List String)
    (tokenize : String → List String) (w : String) :
    w ∈ (screen scenario profanity_list tokenize).matchedTerms ↔
      w ∈ profanity_list ∧
        (containsSubstr scenario w = true ∨ w ∈ tokenize scenario) := by
  simp only [screen, List.mem_dedup, List.mem_filter, Bool.or_eq_true, List.elem_iff]

/-- The matched-term list carries no duplicates. -/
lemma matchedTerms_nodup (scenario : String) (profanity_list : List String)
    (tokenize : String → List String) :
    (screen scenario profanity_list tokenize).matchedTerms.Nodup :=
  List.nodup_dedup _

/-- The screening passes exactly when no lexicon word matches. -/
lemma screen_passed_iff (scenario : String) (profanity_list : List String)
    (tokenize : String → List String) :
    (screen scenario profanity_list tokenize).passed = true ↔
      ∀ w ∈ profanity_list,
        ¬(containsSubstr scenario w = true ∨ w ∈ tokenize scenario) := by
  simp only [screen, List.isEmpty_iff, List.dedup_eq_nil, List.filter_eq_nil_iff,
    Bool.or_eq_true, List.elem_iff]

/-! Branch lemmas for the handler. -/

lemma generate_letter_invalid (d : RequestData) (tokenize : String → List String)
    (profanity_list : List String) (gateway : Except String (List (Option String)))
    (h : hasLetterOrHangul (parseRequest d).scenario = false) :
    generate_letter (some d) tokenize profanity_list gateway =
      { response := { status := 200, body := .envelope false elaborationMessage },
        gatewayCalls := [] } := by
  simp [generate_letter, h]

lemma generate_letter_reject (d : RequestData) (tokenize : String → List String)
    (profanity_list : List String) (gateway : Except String (List (Option String)))
    (h1 : hasLetterOrHangul (parseRequest d).scenario = true)
    (h2 : (screen (parseRequest d).scenario profanity_list tokenize).passed = false) :
    generate_letter (some d) tokenize profanity_list gateway =
      { response := { status := 200,
                      body := .envelope false (profanityMessagePrefix ++
                        String.intercalate ", "
                          (screen (parseRequest d).scenario profanity_list
                            tokenize).matchedTerms) },
        gatewayCalls := [] } := by
  simp [generate_letter, h1, h2]

lemma generate_letter_pass (d : RequestData) (tokenize : String → List String)
    (profanity_list : List String) (gateway : Except String (List (Option String)))
    (h1 : hasLetterOrHangul (parseRequest d).scenario = true)
    (h2 : (screen (parseRequest d).scenario profanity_list tokenize).passed = true) :
    generate_letter (some d) tokenize profanity_list gateway =
      { response := match gateway with
          | .error e => { status := 500, body := .error e }
          | .ok chunks => { status := 200,
                            body := .envelope true (accumulateStream chunks) },
        gatewayCalls := [buildPrompt (parseRequest d).author
          (parseRequest d).documentType (parseRequest d).scenario token_limit] } := by
  cases gateway with
  | error e => simp [generate_letter, h1, h2]
  | ok chunks => simp [generate_letter, h1, h2]

/-- Deduplicating a nonempty list whose elements are all equal to `a`
yields exactly `[a]`. -/
lemma dedup_eq_singleton (l : List String) (a : String)
    (hmem : a ∈ l) (hall : ∀ x ∈ l, x = a) : l.dedup = [a] := by
  induction l with
  | nil => cases hmem
  | cons x t ih =>
    have hx : x = a := hall x (List.mem_cons_self x t)
    subst hx
    by_cases hmt : x ∈ t
    · rw [List.dedup_cons_of_mem hmt]
      exact ih hmt (fun y hy => hall y (List.mem_cons_of_mem _ hy))
    · cases t with
      | nil => rw [List.dedup_cons_of_not_mem hmt, List.dedup_nil]
      | cons y u =>
        have hy : y = x := hall y (List.mem_cons_of_mem _ (List.mem_cons_self y u))
        exact absurd (List.mem_cons.mpr (Or.inl hy.symm)) hmt

lemma foldl_appendChunk (chunks : List (Option String)) (acc : String) :
    (chunks.foldl appendChunk acc).data =
      acc.data ++ ((chunks.filterMap id).map String.data).flatten := by
  induction chunks generalizing acc with
  | nil => simp
  | cons c t ih =>
    cases c with
    | none => simp [List.foldl_cons, appendChunk, ih]
    | some s =>
      by_cases hs : s.isEmpty
      · have hd : s.data = [] := by
          rw [(String.isEmpty_iff s).mp hs]
        simp [List.foldl_cons, appendChunk, hs, ih, hd]
      · simp [List.foldl_cons, appendChunk, hs, ih, List.append_assoc]

/-- The accumulated stream is, character for character, the concatenation
of the present chunk contents in arrival order. -/
lemma accumulateStream_eq_flatten (chunks : List (Option String)) :
    (accumulateStream chunks).data =
      ((chunks.filterMap id).map String.data).flatten := by
  have h := foldl_appendChunk chunks ""
  simpa [accumulateStream] using h

/-- The profanity rejection message never coincides with the
elaboration-request message, whatever the joined word list is. -/
lemma profanity_result_ne_elab (x : String) :
    profanityMessagePrefix ++ x ≠ elaborationMessage := by
  intro h
  have h2 : (profanityMessagePrefix ++ x).data = elaborationMessage.data :=
    congrArg String.data h
  rw [String.data_append] at h2
  have hp : profanityMessagePrefix.data =
      '민' :: ("감한 표현의 단어가 포함되었습니다. : " : String).data := rfl
  rw [hp, List.cons_append] at h2
  have h3 : elaborationMessage.data.head? = some '민' := by
    rw [← h2]
    rfl
  have h4 : elaborationMessage.data.head? = some '당' := rfl
  exact absurd (h3.symm.trans h4) (by decide)

/-- C1 counterexample: with lexicon `["!"]` and scenario `"!"`, the term
`"!"` occurs in the scenario as a substring, yet the handler returns the
fixed elaboration-request message — whose text does not contain the
matched term — because the letter/Hangul presence check rejects the
scenario before screening ever runs. -/
theorem substring_match_shadowed_by_presence_check :
    containsSubstr "!" "!" = true ∧
    (generate_letter (some ⟨none, none, some "!"⟩) (fun _ => []) ["!"]
        (.ok [])).response =
      { status := 200, body := .envelope false elaborationMessage } ∧
    containsSubstr elaborationMessage "!" = false := by
  refine ⟨by decide, by decide, by decide⟩

/-- C1 (amended): for every scenario that passes the letter/Hangul
presence check and contains at least one lexicon term as a substring of
the raw scenario text or as an exact element of its token sequence, the
handler returns isSuccessful false and the result lists every matched
term exactly once, comma-separated, with no duplicates, regardless of how
many times a term appears or whether both checks find it. -/
theorem profanity_rejection_lists_each_match_once
    (d : RequestData) (tokenize : String → List String)
    (profanity_list : List String) (gateway : Except String (List (Option String)))
    (hletters : hasLetterOrHangul (parseRequest d).scenario = true)
    (hmatch : ∃ w ∈ profanity_list,
      containsSubstr (parseRequest d).scenario w = true ∨
        w ∈ tokenize (parseRequest d).scenario) :
    ∃ found : List String,
      (generate_letter (some d) tokenize profanity_list gateway).response =
        { status := 200,
          body := .envelope false
            (profanityMessagePrefix ++ String.intercalate ", " found) } ∧
      found.Nodup ∧
      ∀ w, w ∈ found ↔ w ∈ profanity_list ∧
        (containsSubstr (parseRequest d).scenario w = true ∨
          w ∈ tokenize (parseRequest d).scenario) := by
  have hfail :
      (screen (parseRequest d).scenario profanity_list tokenize).passed = false := by
    cases hpass : (screen (parseRequest d).scenario profanity_list tokenize).passed with
    | false => rfl
    | true =>
      rcases hmatch with ⟨w, hw, hm⟩
      exact absurd hm ((screen_passed_iff _ _ _).mp hpass w hw)
  refine ⟨(screen (parseRequest d).scenario profanity_list tokenize).matchedTerms,
    ?_, matchedTerms_nodup _ _ _, fun w => mem_matchedTerms _ _ _ w⟩
  rw [generate_letter_reject d tokenize profanity_list gateway hletters hfail]

/-- Witness for the amended C1 at the scenario `"너는 바보야"` against the
lexicon `["바보"]`. -/
theorem profanity_rejection_lists_each_match_once_witness :
    hasLetterOrHangul "너는 바보야" = true ∧
    (∃ found : List String,
      (generate_letter (some ⟨none, none, some "너는 바보야"⟩) (fun _ => [])
          ["바보"] (.ok [])).response =
        { status := 200,
          body := .envelope false
            (profanityMessagePrefix ++ String.intercalate ", " found) } ∧
      found.Nodup ∧
      ∀ w, w ∈ found ↔ w ∈ (["바보"] : List String) ∧
        (containsSubstr "너는 바보야" w = true ∨ w ∈ ([] : List String))) :=
  ⟨by decide,
    profanity_rejection_lists_each_match_once ⟨none, none, some "너는 바보야"⟩
      (fun _ => []) ["바보"] (.ok []) (by decide)
      ⟨"바보", List.mem_cons_self _ _, Or.inl (by decide)⟩⟩

/-- C2: for every parsed request whose scenario contains no Latin letter
and no Hangul syllable, the handler answers 200 with isSuccessful false
and the fixed elaboration-request message, invokes the Generation Gateway
on no prompt, and its outcome does not depend on the tokenizer or the
gateway — neither is ever consulted. -/
theorem invalid_scenario_soft_rejected (d : RequestData)
    (tokenize : String → List String) (profanity_list : List String)
    (gateway : Except String (List (Option String)))
    (h : hasLetterOrHangul (parseRequest d).scenario = false) :
    generate_letter (some d) tokenize profanity_list gateway =
      { response := { status := 200, body := .envelope false elaborationMessage },
        gatewayCalls := [] } ∧
    ∀ (tokenize2 : String → List String)
      (gateway2 : Except String (List (Option String))),
      generate_letter (some d) tokenize2 profanity_list gateway2 =
        generate_letter (some d) tokenize profanity_list gateway := by
  refine ⟨generate_letter_invalid d tokenize profanity_list gateway h, ?_⟩
  intro tokenize2 gateway2
  rw [generate_letter_invalid d tokenize profanity_list gateway h,
    generate_letter_invalid d tokenize2 profanity_list gateway2 h]

/-- Witness for C2 at the spec concrete input scenario `"ㅋㅋㅋ"` (Hangul
jamo only: no Latin letter, no Hangul syllable). -/
theorem invalid_scenario_soft_rejected_witness :
    hasLetterOrHangul "ㅋㅋㅋ" = false ∧
    generate_letter (some ⟨none, none, some "ㅋㅋㅋ"⟩) (fun _ => []) [] (.ok []) =
      { response := { status := 200, body := .envelope false elaborationMessage },
        gatewayCalls := [] } :=
  ⟨by decide, (invalid_scenario_soft_rejected ⟨none, none, some "ㅋㅋㅋ"⟩
      (fun _ => []) [] (.ok []) (by decide)).1⟩

/-- C3: every term reported by the screening step belongs to the lexicon
and occurs verbatim (case- and script-sensitively, no normalization)
either contiguously inside the raw scenario text or as one of the
scenario tokens. -/
theorem matchedTerms_subset_of_verbatim_occurrences
    (scenario : String) (profanity_list : List String)
    (tokenize : String → List String) (w : String)
    (hw : w ∈ (screen scenario profanity_list tokenize).matchedTerms) :
    w ∈ profanity_list ∧
      ((∃ l r, scenario.data = l ++ (w.data ++ r)) ∨ w ∈ tokenize scenario) := by
  rcases (mem_matchedTerms scenario profanity_list tokenize w).mp hw with ⟨h1, h2⟩
  refine ⟨h1, ?_⟩
  cases h2 with
  | inl h => exact Or.inl ((containsSubstr_iff scenario w).mp h)
  | inr h => exact Or.inr h

/-- Witness for C3 at the scenario `"너는 바보야"`, lexicon `["바보"]`. -/
theorem matchedTerms_subset_of_verbatim_occurrences_witness :
    "바보" ∈ (screen "너는 바보야" ["바보"] (fun _ => [])).matchedTerms ∧
    ("바보" ∈ (["바보"] : List String) ∧
      ((∃ l r, ("너는 바보야" : String).data = l ++ (("바보" : String).data ++ r)) ∨
        "바보" ∈ ([] : List String))) :=
  ⟨by decide, matchedTerms_subset_of_verbatim_occurrences "너는 바보야" ["바보"]
      (fun _ => []) "바보" (by decide)⟩

/-- When exactly one lexicon word matches the scenario, the screening
rejects with that word as its only reported term. -/
lemma screen_eq_of_unique_match (scenario : String) (profanity_list : List String)
    (tokenize : String → List String) (a : String)
    (hmem : a ∈ profanity_list)
    (ha : containsSubstr scenario a = true ∨ a ∈ tokenize scenario)
    (honly : ∀ w ∈ profanity_list,
      (containsSubstr scenario w = true ∨ w ∈ tokenize scenario) → w = a) :
    screen scenario profanity_list tokenize =
      { passed := false, matchedTerms := [a] } := by
  have hmem2 : a ∈ profanity_list.filter
      (fun word => containsSubstr scenario word ||
        (tokenize scenario).contains word) := by
    refine List.mem_filter.mpr ⟨hmem, ?_⟩
    simp only [Bool.or_eq_true, List.elem_iff]
    exact ha
  have hall : ∀ x ∈ profanity_list.filter
      (fun word => containsSubstr scenario word ||
        (tokenize scenario).contains word), x = a := by
    intro x hx
    rcases List.mem_filter.mp hx with ⟨hxl, hxp⟩
    apply honly x hxl
    simpa only [Bool.or_eq_true, List.elem_iff] using hxp
  have hd := dedup_eq_singleton _ a hmem2 hall
  simp only [screen]
  rw [hd]
  rfl

/-- C4 (amended): if the lexicon contains `"바보"` and no other lexicon
term occurs in `"너는 바보야"` as a substring or as one of its tokens,
then the handler answers exactly isSuccessful false with result
`"민감한 표현의 단어가 포함되었습니다. : 바보"`. -/
theorem barbo_scenario_rejected_exactly (profanity_list : List String)
    (tokenize : String → List String)
    (gateway : Except String (List (Option String)))
    (hmem : "바보" ∈ profanity_list)
    (honly : ∀ w ∈ profanity_list, w ≠ "바보" →
      containsSubstr "너는 바보야" w = false ∧ w ∉ tokenize "너는 바보야") :
    (generate_letter (some ⟨none, none, some "너는 바보야"⟩) tokenize
        profanity_list gateway).response =
      { status := 200,
        body := .envelope false "민감한 표현의 단어가 포함되었습니다. : 바보" } := by
  have hs : screen "너는 바보야" profanity_list tokenize =
      { passed := false, matchedTerms := ["바보"] } := by
    apply screen_eq_of_unique_match
    · exact hmem
    · exact Or.inl (by decide)
    · intro w hw hmatch
      by_contra hne
      rcases honly w hw hne with ⟨hc, ht⟩
      cases hmatch with
      | inl h => exact absurd h (by simp [hc])
      | inr h => exact absurd h ht
  have hrej := generate_letter_reject ⟨none, none, some "너는 바보야"⟩ tokenize
    profanity_list gateway (by decide)
    (by show (screen "너는 바보야" profanity_list tokenize).passed = false
        rw [hs])
  rw [hrej]
  show ({ status := 200,
          body := .envelope false (profanityMessagePrefix ++ String.intercalate ", "
            (screen "너는 바보야" profanity_list tokenize).matchedTerms) } :
        HttpResponse) = _
  rw [hs]
  decide

/-- Witness for the amended C4 with the singleton lexicon `["바보"]`. -/
theorem barbo_scenario_rejected_exactly_witness :
    "바보" ∈ (["바보"] : List String) ∧
    (generate_letter (some ⟨none, none, some "너는 바보야"⟩) (fun _ => [])
        ["바보"] (.ok [])).response =
      { status := 200,
        body := .envelope false "민감한 표현의 단어가 포함되었습니다. : 바보" } :=
  ⟨List.mem_cons_self _ _,
    barbo_scenario_rejected_exactly ["바보"] (fun _ => []) (.ok [])
      (List.mem_cons_self _ _) (by decide)⟩

/-- C4 counterexample: with the lexicon `["바보", "너"]` — which does
contain `"바보"` — and the request scenario `"너는 바보야"`, the handler
does not return the claimed body, because the second lexicon term
`"너"` also occurs in the scenario and is listed alongside. -/
theorem barbo_extra_matching_term_counterexample :
    "바보" ∈ (["바보", "너"] : List String) ∧
    (generate_letter (some ⟨none, none, some "너는 바보야"⟩) (fun _ => [])
        ["바보", "너"] (.ok [])).response ≠
      { status := 200,
        body := .envelope false "민감한 표현의 단어가 포함되었습니다. : 바보" } := by
  exact ⟨by decide, by decide⟩

/-- C5: the screening computation is deterministic — running it on
identical scenario strings against an unchanged lexicon and tokenizer
yields the same pass/reject decision and the same matched-term list. -/
theorem screening_decision_deterministic (s1 s2 : String)
    (profanity_list : List String) (tokenize : String → List String)
    (h : s1 = s2) :
    screen s1 profanity_list tokenize = screen s2 profanity_list tokenize := by
  rw [h]

/-- Witness for C5: two runs on the scenario `"바보야"`. -/
theorem screening_decision_deterministic_witness :
    ("바보야" : String) = "바보야" ∧
    screen "바보야" ["바보"] (fun _ => []) = screen "바보야" ["바보"] (fun _ => []) :=
  ⟨rfl, screening_decision_deterministic "바보야" "바보야" ["바보"] (fun _ => []) rfl⟩

/-- C6: for every scenario that passes the letter/Hangul presence check
and matches no lexicon term, the Generation Gateway is invoked exactly
once, with the prompt pair computed by the Prompt Builder from exactly
(author, documentType, scenario, tokenLimit) — a function of those four
inputs, hence identical across calls with identical values. -/
theorem gateway_invoked_once_with_built_prompt (d : RequestData)
    (tokenize : String → List String) (profanity_list : List String)
    (gateway : Except String (List (Option String)))
    (hletters : hasLetterOrHangul (parseRequest d).scenario = true)
    (hclean : (screen (parseRequest d).scenario profanity_list tokenize).passed = true) :
    (generate_letter (some d) tokenize profanity_list gateway).gatewayCalls =
      [buildPrompt (parseRequest d).author (parseRequest d).documentType
        (parseRequest d).scenario token_limit] := by
  rw [generate_letter_pass d tokenize profanity_list gateway hletters hclean]

/-- Witness for C6 at the spec concrete input scenario `"oo"` with the
defaulted author and document type. -/
theorem gateway_invoked_once_with_built_prompt_witness :
    hasLetterOrHangul "oo" = true ∧
    (screen "oo" [] (fun _ => [])).passed = true ∧
    (generate_letter (some ⟨none, none, some "oo"⟩) (fun _ => []) []
        (.ok [])).gatewayCalls = [buildPrompt "무명 작가" "단문" "oo" token_limit] :=
  ⟨by decide, by decide,
    gateway_invoked_once_with_built_prompt ⟨none, none, some "oo"⟩ (fun _ => [])
      [] (.ok []) (by decide) (by decide)⟩

/-- C7: every response of the handler is either HTTP 200 with the
isSuccessful/result envelope or HTTP 500 with the error shape; in
particular both soft-rejection paths (invalid scenario, profanity match)
answer 200 with a false success flag, and non-200 status occurs only on
genuine failures (unparseable body or gateway exception). -/
theorem soft_rejections_carry_success_status (data : Option RequestData)
    (tokenize : String → List String) (profanity_list : List String)
    (gateway : Except String (List (Option String))) :
    ((∃ b r, (generate_letter data tokenize profanity_list gateway).response =
        { status := 200, body := .envelope b r }) ∨
      (∃ e, (generate_letter data tokenize profanity_list gateway).response =
        { status := 500, body := .error e })) ∧
    (∀ d, data = some d →
      hasLetterOrHangul (parseRequest d).scenario = false →
      (generate_letter data tokenize profanity_list gateway).response =
        { status := 200, body := .envelope false elaborationMessage }) ∧
    (∀ d, data = some d →
      hasLetterOrHangul (parseRequest d).scenario = true →
      (screen (parseRequest d).scenario profanity_list tokenize).passed = false →
      ∃ r, (generate_letter data tokenize profanity_list gateway).response =
        { status := 200, body := .envelope false r }) := by
  refine ⟨?_, ?_, ?_⟩
  · cases data with
    | none => exact Or.inr ⟨parseFailureMessage, rfl⟩
    | some d =>
      cases hL : hasLetterOrHangul (parseRequest d).scenario with
      | false =>
        exact Or.inl ⟨false, elaborationMessage,
          by rw [generate_letter_invalid d tokenize profanity_list gateway hL]⟩
      | true =>
        cases hP : (screen (parseRequest d).scenario profanity_list tokenize).passed with
        | false =>
          exact Or.inl ⟨false, _,
            by rw [generate_letter_reject d tokenize profanity_list gateway hL hP]⟩
        | true =>
          cases gateway with
          | error e =>
            exact Or.inr ⟨e,
              by rw [generate_letter_pass d tokenize profanity_list (.error e) hL hP]⟩
          | ok chunks =>
            exact Or.inl ⟨true, accumulateStream chunks,
              by rw [generate_letter_pass d tokenize profanity_list (.ok chunks) hL hP]⟩
  · rintro d rfl hL
    rw [generate_letter_invalid d tokenize profanity_list gateway hL]
  · rintro d rfl hL hP
    exact ⟨_, by rw [generate_letter_reject d tokenize profanity_list gateway hL hP]⟩

/-- Witness for C7: the empty scenario is soft-rejected with status 200
and a false success flag. -/
theorem soft_rejections_carry_success_status_witness :
    (generate_letter (some ⟨none, none, some ""⟩) (fun _ => []) []
        (.ok [])).response =
      { status := 200, body := .envelope false elaborationMessage } :=
  (soft_rejections_carry_success_status (some ⟨none, none, some ""⟩) (fun _ => [])
      [] (.ok [])).2.1 ⟨none, none, some ""⟩ rfl (by decide)

/-- C8: parsing a structured payload into a GenerationRequest always
succeeds, each missing field absorbed by its default (author `"무명 작가"`,
documentType `"단문"`, scenario `"주제 없음"`): with a working gateway a
structured payload never produces the Failed outcome (status stays 200),
and only an unparseable payload transitions the parse stage to Failed. -/
theorem structured_payload_always_parses (d : RequestData)
    (tokenize : String → List String) (profanity_list : List String)
    (chunks : List (Option String))
    (gateway : Except String (List (Option String))) :
    parseRequest d = { author := d.author.getD "무명 작가",
                       documentType := d.documentType.getD "단문",
                       scenario := d.scenario.getD "주제 없음" } ∧
    (generate_letter (some d) tokenize profanity_list (.ok chunks)).response.status =
      200 ∧
    (generate_letter none tokenize profanity_list gateway).response =
      { status := 500, body := .error parseFailureMessage } := by
  refine ⟨rfl, ?_, rfl⟩
  cases hL : hasLetterOrHangul (parseRequest d).scenario with
  | false => rw [generate_letter_invalid d tokenize profanity_list (.ok chunks) hL]
  | true =>
    cases hP : (screen (parseRequest d).scenario profanity_list tokenize).passed with
    | false => rw [generate_letter_reject d tokenize profanity_list (.ok chunks) hL hP]
    | true => rw [generate_letter_pass d tokenize profanity_list (.ok chunks) hL hP]

/-- C9: on a successful generation the returned result is exactly the
accumulated stream — the left fold appending each present, non-empty
fragment — and that accumulation is, character for character, the
concatenation of the delivered fragments in arrival order, with no
post-processing, truncation, or reordering. -/
theorem generation_result_is_stream_concatenation (d : RequestData)
    (tokenize : String → List String) (profanity_list : List String)
    (chunks : List (Option String))
    (hletters : hasLetterOrHangul (parseRequest d).scenario = true)
    (hclean : (screen (parseRequest d).scenario profanity_list tokenize).passed = true) :
    (generate_letter (some d) tokenize profanity_list (.ok chunks)).response =
      { status := 200, body := .envelope true (accumulateStream chunks) } ∧
    (accumulateStream chunks).data =
      ((chunks.filterMap id).map String.data).flatten := by
  refine ⟨?_, accumulateStream_eq_flatten chunks⟩
  rw [generate_letter_pass d tokenize profanity_list (.ok chunks) hletters hclean]

/-- Witness for C9: a stream with an absent delta and an empty fragment
still concatenates to the fragments in arrival order. -/
theorem generation_result_is_stream_concatenation_witness :
    hasLetterOrHangul "하늘" = true ∧
    (screen "하늘" [] (fun _ => [])).passed = true ∧
    ((generate_letter (some ⟨some "김소월", some "시", some "하늘"⟩) (fun _ => []) []
        (.ok [some "안", none, some "", some "녕"])).response =
      { status := 200,
        body := .envelope true
          (accumulateStream [some "안", none, some "", some "녕"]) } ∧
    (accumulateStream [some "안", none, some "", some "녕"]).data =
      (([some "안", none, some "", some "녕"].filterMap id).map String.data).flatten) :=
  ⟨by decide, by decide,
    generation_result_is_stream_concatenation ⟨some "김소월", some "시", some "하늘"⟩
      (fun _ => []) [] [some "안", none, some "", some "녕"] (by decide) (by decide)⟩

/-- C10: a parseable body omitting the scenario field defaults it to
`"주제 없음"`, which contains Hangul syllables and therefore passes the
presence check: such a request is never soft-rejected with the
elaboration-request message, and when the defaulted scenario matches no
lexicon term the request proceeds to generation with the built prompt. -/
theorem omitted_scenario_defaults_past_presence_check (d : RequestData)
    (tokenize : String → List String) (profanity_list : List String)
    (gateway : Except String (List (Option String)))
    (h : d.scenario = none) :
    (parseRequest d).scenario = "주제 없음" ∧
    hasLetterOrHangul "주제 없음" = true ∧
    (generate_letter (some d) tokenize profanity_list gateway).response.body ≠
      .envelope false elaborationMessage ∧
    ((screen "주제 없음" profanity_list tokenize).passed = true →
      (generate_letter (some d) tokenize profanity_list gateway).gatewayCalls =
        [buildPrompt (parseRequest d).author (parseRequest d).documentType
          "주제 없음" token_limit]) := by
  have hscen : (parseRequest d).scenario = "주제 없음" := by
    simp [parseRequest, h]
  have hL : hasLetterOrHangul (parseRequest d).scenario = true := by
    rw [hscen]
    decide
  refine ⟨hscen, by decide, ?_, ?_⟩
  · cases hP : (screen (parseRequest d).scenario profanity_list tokenize).passed with
    | false =>
      rw [generate_letter_reject d tokenize profanity_list gateway hL hP]
      intro hcontra
      injection hcontra with h1 h2
      exact profanity_result_ne_elab _ h2
    | true =>
      cases gateway with
      | error e =>
        rw [generate_letter_pass d tokenize profanity_list (.error e) hL hP]
        intro hcontra
        exact ResponseBody.noConfusion hcontra
      | ok chunks =>
        rw [generate_letter_pass d tokenize profanity_list (.ok chunks) hL hP]
        intro hcontra
        injection hcontra with h1 h2
        exact Bool.noConfusion h1
  · intro hpass
    have hP : (screen (parseRequest d).scenario profanity_list tokenize).passed = true := by
      rw [hscen]
      exact hpass
    rw [generate_letter_pass d tokenize profanity_list gateway hL hP, hscen]

/-- Witness for C10: a body carrying only an author reaches generation
with the defaulted scenario. -/
theorem omitted_scenario_defaults_past_presence_check_witness :
    (⟨some "윤동주", none, none⟩ : RequestData).scenario = none ∧
    (generate_letter (some ⟨some "윤동주", none, none⟩) (fun _ => []) ["바보"]
        (.ok [some "별"])).gatewayCalls =
      [buildPrompt "윤동주" "단문" "주제 없음" token_limit] :=
  ⟨rfl,
    (omitted_scenario_defaults_past_presence_check ⟨some "윤동주", none, none⟩
        (fun _ => []) ["바보"] (.ok [some "별"]) rfl).2.2.2 (by decide)⟩

end Papyrus
